import Mathlib

/-!
Verification of the rule validator in `api/kyverno/v1/rule_types.go`.

The Go data model is embedded shallowly.  Go slices and maps can be `nil` or
empty-but-non-nil, and `reflect.DeepEqual` distinguishes the two, so slice- and
map-valued fields are embedded as `Option (List _)`: `none` is the nil slice
and `some []` the empty non-nil slice.  Go maps are embedded as association
lists whose semantics is given by key lookup (Go map indexing returns the zero
value `""` for a missing key); `reflect.DeepEqual` on maps is embedded as
lookup-graph equality, which is order-insensitive like Go map equality.
-/

set_option autoImplicit false

/-- Embeds `*field.Path`: a rooted field path; `Child` appends one component. -/
structure FieldPath where
  parts : List String := []
deriving DecidableEq, Repr

def FieldPath.child (p : FieldPath) (s : String) : FieldPath :=
  ⟨p.parts ++ [s]⟩

/-- Embeds one `*field.Error` produced via `field.Invalid(path, value, message)`.
The offending value carried by `field.Invalid` is always the rule under
validation and plays no role in any claim, so only path and message are kept. -/
structure FieldError where
  path : FieldPath
  message : String
deriving DecidableEq, Repr

/-- Length of a Go slice: `len` of a nil slice is `0`. -/
def listLen {α : Type} : Option (List α) → Nat
  | none => 0
  | some l => l.length

/-- Elements of a Go slice: ranging over a nil slice yields nothing. -/
def optList {α : Type} : Option (List α) → List α
  | none => []
  | some l => l

/-- Inner loop of `github.com/minio/pkg/wildcard.deepMatchRune` for a `*`
pattern head: `starLoop f str` tries `f` on `str` and on every shorter suffix,
which is exactly the unfolding of the library's recursion
`deepMatchRune(str, pattern, simple) = f(str) || (len(str) > 0 && deepMatchRune(str[1:], pattern, simple))`
for `pattern` starting with `*` (see `deepMatchRune_star_eq` below). -/
def starLoop (f : List Char → Bool) : List Char → Bool
  | [] => f []
  | s :: ss => f (s :: ss) || starLoop f ss

/-- Embeds `github.com/minio/pkg/wildcard.deepMatchRune`.  The recursion is
structural on the pattern; the library's self-call on the string tail with an
unchanged `*`-headed pattern is factored into `starLoop`. -/
def deepMatchRune : List Char → List Char → Bool → Bool
  | str, [], _ => str.isEmpty
  | str, c :: ps, simple =>
    if c = '?' then
      match str with
      | [] => simple
      | _ :: ss => deepMatchRune ss ps simple
    else if c = '*' then
      starLoop (fun s => deepMatchRune s ps simple) str
    else
      match str with
      | [] => false
      | s :: ss => decide (s = c) && deepMatchRune ss ps simple

/-- The defining equation of the library's `*` case, recovered for the
`starLoop` formulation: this is literally
`return deepMatchRune(str, pattern[1:], simple) || (len(str) > 0 && deepMatchRune(str[1:], pattern, simple))`. -/
theorem deepMatchRune_star_eq (str ps : List Char) (simple : Bool) :
    deepMatchRune str ('*' :: ps) simple =
      (deepMatchRune str ps simple ||
        (!str.isEmpty && deepMatchRune str.tail ('*' :: ps) simple)) := by
  cases str with
  | nil => simp [deepMatchRune, starLoop]
  | cons s ss => simp [deepMatchRune, starLoop]

/-- Embeds `github.com/minio/pkg/wildcard.Match` (rune-wise wildcard matching
with `*` and `?`). -/
def wildcardMatch (pattern name : String) : Bool :=
  if pattern = "" then decide (name = pattern)
  else if pattern = "*" then true
  else deepMatchRune name.toList pattern.toList false

/-- Embeds `rbacv1.Subject` as used by `MatchResources.UserInfo.Subjects`: a
record of plain strings, so `json.Marshal`-string equality used by the source
coincides with structural equality. -/
structure Subject where
  kind : String := ""
  apiGroup : String := ""
  name : String := ""
  nspace : String := ""
deriving DecidableEq, Repr

/-- Embeds `metav1.LabelSelectorRequirement`: key, operator and an optional
values slice; compared by the source through `json.Marshal` strings, which
again coincides with structural equality (a nil and an empty values slice
serialize differently). -/
structure LabelSelectorRequirement where
  key : String := ""
  operator : String := ""
  values : Option (List String) := none
deriving DecidableEq, Repr

/-- Embeds `*metav1.LabelSelector`: an optional label map plus an optional
expressions slice. -/
structure LabelSelector where
  matchLabels : Option (List (String × String)) := none
  matchExpressions : Option (List LabelSelectorRequirement) := none
deriving DecidableEq, Repr

/-- Embeds `ResourceDescription` (the `resources` block): kinds, single
wildcard name, names list, namespaces, annotation map, label selector and
namespace selector. -/
structure ResourceDescription where
  kinds : Option (List String) := none
  name : String := ""
  names : Option (List String) := none
  namespaces : Option (List String) := none
  annotations : Option (List (String × String)) := none
  selector : Option LabelSelector := none
  namespaceSelector : Option LabelSelector := none
deriving DecidableEq, Repr

/-- Embeds `UserInfo`: roles, cluster roles and subjects. -/
structure UserInfo where
  roles : Option (List String) := none
  clusterRoles : Option (List String) := none
  subjects : Option (List Subject) := none
deriving DecidableEq, Repr

/-- Embeds `ResourceFilter`: one entry of a `MatchResources.Any`/`All` list,
a `UserInfo` plus a `ResourceDescription`. -/
structure ResourceFilter where
  userInfo : UserInfo := {}
  resourceDescription : ResourceDescription := {}
deriving DecidableEq, Repr

/-- Embeds `MatchResources`: the embedded `UserInfo` and `ResourceDescription`
plus the `Any` and `All` filter lists. -/
structure MatchResources where
  userInfo : UserInfo := {}
  resourceDescription : ResourceDescription := {}
  any : Option (List ResourceFilter) := none
  all : Option (List ResourceFilter) := none
deriving DecidableEq, Repr

/- Accessors mirroring Go field promotion of the embedded structs
(`r.MatchResources.Roles` is `r.MatchResources.UserInfo.Roles`, etc.). -/

def MatchResources.roles (m : MatchResources) : Option (List String) :=
  m.userInfo.roles

def MatchResources.clusterRoles (m : MatchResources) : Option (List String) :=
  m.userInfo.clusterRoles

def MatchResources.subjects (m : MatchResources) : Option (List Subject) :=
  m.userInfo.subjects

def MatchResources.kinds (m : MatchResources) : Option (List String) :=
  m.resourceDescription.kinds

def MatchResources.name (m : MatchResources) : String :=
  m.resourceDescription.name

def MatchResources.names (m : MatchResources) : Option (List String) :=
  m.resourceDescription.names

def MatchResources.namespaces (m : MatchResources) : Option (List String) :=
  m.resourceDescription.namespaces

def MatchResources.annotations (m : MatchResources) : Option (List (String × String)) :=
  m.resourceDescription.annotations

def MatchResources.selector (m : MatchResources) : Option LabelSelector :=
  m.resourceDescription.selector

def MatchResources.namespaceSelector (m : MatchResources) : Option LabelSelector :=
  m.resourceDescription.namespaceSelector

/-- Modelled from the spec: the mutation payload (`Mutation`) is an external
collaborator; only whether the field differs from its zero value is observable
to this core, so it is embedded as an opaque optional payload. -/
structure Mutation where
  payload : Option String := none
deriving DecidableEq, Repr

/-- Modelled from the spec: the validation payload (`Validation`), as for
`Mutation`. -/
structure Validation where
  payload : Option String := none
deriving DecidableEq, Repr

/-- Modelled from the spec: the generation payload (`Generation`), as for
`Mutation`. -/
structure Generation where
  payload : Option String := none
deriving DecidableEq, Repr

/-- Modelled from the spec: one image-verification entry (`ImageVerification`);
its contents are opaque to this core. -/
structure ImageVerification where
  payload : Option String := none
deriving DecidableEq, Repr

/-- Embeds `Rule` with the fields this core reads.  `Context` and the raw
precondition JSON are opaque to validation and omitted. -/
structure Rule where
  name : String := ""
  matchResources : MatchResources := {}
  excludeResources : MatchResources := {}
  mutation : Mutation := {}
  validation : Validation := {}
  generation : Generation := {}
  verifyImages : Option (List ImageVerification) := none
deriving DecidableEq, Repr

/- `reflect.DeepEqual`.  On the record types above it is structural equality
except on map-valued fields, where Go compares maps as key-value graphs
irrespective of representation order.  `mapLookup` is Go map lookup;
`mapEqCore` is graph equality of two (non-nil) maps. -/

def mapLookup (m : List (String × String)) (k : String) : Option String :=
  (m.find? fun q => decide (q.1 = k)).map Prod.snd

def mapEqCore (a b : List (String × String)) : Bool :=
  (a.all fun q => decide (mapLookup b q.1 = mapLookup a q.1)) &&
  (b.all fun q => decide (mapLookup a q.1 = mapLookup b q.1))

/-- `reflect.DeepEqual` on two Go maps (nil ≠ empty non-nil). -/
def optMapDeepEqual : Option (List (String × String)) → Option (List (String × String)) → Bool
  | none, none => true
  | some a, some b => mapEqCore a b
  | _, _ => false

/-- `reflect.DeepEqual` on `*metav1.LabelSelector` values. -/
def LabelSelector.deepEqual (a b : LabelSelector) : Bool :=
  optMapDeepEqual a.matchLabels b.matchLabels &&
  decide (a.matchExpressions = b.matchExpressions)

def optSelectorDeepEqual : Option LabelSelector → Option LabelSelector → Bool
  | none, none => true
  | some a, some b => a.deepEqual b
  | _, _ => false

/-- `reflect.DeepEqual` on `ResourceDescription` values. -/
def ResourceDescription.deepEqual (a b : ResourceDescription) : Bool :=
  decide (a.kinds = b.kinds) && decide (a.name = b.name) &&
  decide (a.names = b.names) && decide (a.namespaces = b.namespaces) &&
  optMapDeepEqual a.annotations b.annotations &&
  optSelectorDeepEqual a.selector b.selector &&
  optSelectorDeepEqual a.namespaceSelector b.namespaceSelector

/-- `reflect.DeepEqual` on `ResourceFilter` values (the entries of the
`Any`/`All` lists), as used at line 144 of `rule_types.go`. -/
def ResourceFilter.deepEqual (a b : ResourceFilter) : Bool :=
  decide (a.userInfo = b.userInfo) &&
  a.resourceDescription.deepEqual b.resourceDescription

def optFilterListDeepEqual : Option (List ResourceFilter) → Option (List ResourceFilter) → Bool
  | none, none => true
  | some a, some b =>
    decide (a.length = b.length) && (a.zip b).all fun q => q.1.deepEqual q.2
  | _, _ => false

/-- `reflect.DeepEqual` on `MatchResources` values, as used at line 151 of
`rule_types.go` against the zero value `MatchResources{}`. -/
def MatchResources.deepEqual (a b : MatchResources) : Bool :=
  decide (a.userInfo = b.userInfo) &&
  a.resourceDescription.deepEqual b.resourceDescription &&
  optFilterListDeepEqual a.any b.any &&
  optFilterListDeepEqual a.all b.all

/-- Embeds `Rule.HasMutate`: `!reflect.DeepEqual(r.Mutation, Mutation{})`. -/
def Rule.HasMutate (r : Rule) : Bool :=
  !decide (r.mutation = {})

/-- Embeds `Rule.HasValidate`: `!reflect.DeepEqual(r.Validation, Validation{})`. -/
def Rule.HasValidate (r : Rule) : Bool :=
  !decide (r.validation = {})

/-- Embeds `Rule.HasGenerate`: `!reflect.DeepEqual(r.Generation, Generation{})`. -/
def Rule.HasGenerate (r : Rule) : Bool :=
  !decide (r.generation = {})

/-- Embeds `Rule.HasVerifyImages`:
`r.VerifyImages != nil && !reflect.DeepEqual(r.VerifyImages, ImageVerification{})`.
The second conjunct compares a slice (`[]*ImageVerification`) with a struct of
a different type (`ImageVerification{}`), so `reflect.DeepEqual` there is
constantly `false` in Go; it is embedded as the literal `false`. -/
def Rule.HasVerifyImages (r : Rule) : Bool :=
  r.verifyImages.isSome && !false

/-- Embeds `Rule.ValidateRuleType`.  The Go messages quote the rule name with
single quotes; the quotes are elided here, the surrounding text is kept. -/
def Rule.ValidateRuleType (r : Rule) (path : FieldPath) : List FieldError :=
  let ruleTypes := [r.HasMutate, r.HasValidate, r.HasGenerate, r.HasVerifyImages]
  let count := ruleTypes.foldl (fun c v => if v then c + 1 else c) (0 : Nat)
  if count = 0 then
    [⟨path, "No operation defined in the rule " ++ r.name ++
      ".(supported operations: mutate,validate,generate,verifyImages)"⟩]
  else if count ≠ 1 then
    [⟨path, "Multiple operations defined in the rule " ++ r.name ++
      ", only one operation (mutate,validate,generate,verifyImages) is allowed per rule"⟩]
  else []

/-- The count of populated effect fields computed inside `ValidateRuleType`. -/
def Rule.operationCount (r : Rule) : Nat :=
  [r.HasMutate, r.HasValidate, r.HasGenerate, r.HasVerifyImages].foldl
    (fun c v => if v then c + 1 else c) (0 : Nat)

/-- The single error value both conflict-error sites produce:
`field.Invalid(path, r, "Rule is matching an empty set")`. -/
def emptySetError (path : FieldPath) : FieldError :=
  ⟨path, "Rule is matching an empty set"⟩

/-- Line 144: some match-`Any` entry is `reflect.DeepEqual` to some
exclude-`Any` entry (the double loop returns the error at the first such pair). -/
def anyEntryOverlap (r : Rule) : Bool :=
  (optList r.matchResources.any).any fun rmr =>
    (optList r.excludeResources.any).any fun rer => rmr.deepEqual rer

/-- `sets.String.HasAll`: every element of `ms` is a member of `ex`
(`sets.NewString` deduplication is irrelevant to membership). -/
def hasAllStrings (ex ms : List String) : Bool :=
  ms.all fun m => decide (m ∈ ex)

/-- Lines 177-181: the roles dimension returns no-conflict, i.e. exclude roles
are populated and match roles are empty or not contained in them. -/
def rolesDimensionBlocks (r : Rule) : Bool :=
  decide (0 < listLen r.excludeResources.roles) &&
    (decide (listLen r.matchResources.roles = 0) ||
      !hasAllStrings (optList r.excludeResources.roles) (optList r.matchResources.roles))

/-- Lines 182-186: same for cluster roles. -/
def clusterRolesDimensionBlocks (r : Rule) : Bool :=
  decide (0 < listLen r.excludeResources.clusterRoles) &&
    (decide (listLen r.matchResources.clusterRoles = 0) ||
      !hasAllStrings (optList r.excludeResources.clusterRoles)
        (optList r.matchResources.clusterRoles))

/-- Lines 187-197: the subjects dimension returns no-conflict.  Subjects are
compared through `json.Marshal` strings, which on the all-string `Subject`
record coincides with structural equality. -/
def subjectsDimensionBlocks (r : Rule) : Bool :=
  decide (0 < listLen r.excludeResources.subjects) &&
    (decide (listLen r.matchResources.subjects = 0) ||
      !((optList r.matchResources.subjects).all fun s =>
          decide (s ∈ optList r.excludeResources.subjects)))

/-- Lines 198-202: the single-name dimension returns no-conflict: exclude's
`Name` is set and does not wildcard-match match's `Name`. -/
def nameDimensionBlocks (r : Rule) : Bool :=
  decide (r.excludeResources.name ≠ "") &&
    !wildcardMatch r.excludeResources.name r.matchResources.name

/-- Lines 215-221: some match name wildcard-matches some exclude pattern. -/
def namesConflict (r : Rule) : Bool :=
  (optList r.matchResources.names).any fun matchName =>
    (optList r.excludeResources.names).any fun excludeName =>
      wildcardMatch excludeName matchName

/-- Lines 224-228: the namespaces dimension returns no-conflict. -/
def namespacesDimensionBlocks (r : Rule) : Bool :=
  decide (0 < listLen r.excludeResources.namespaces) &&
    (decide (listLen r.matchResources.namespaces = 0) ||
      !hasAllStrings (optList r.excludeResources.namespaces)
        (optList r.matchResources.namespaces))

/-- Lines 229-233: the kinds dimension returns no-conflict. -/
def kindsDimensionBlocks (r : Rule) : Bool :=
  decide (0 < listLen r.excludeResources.kinds) &&
    (decide (listLen r.matchResources.kinds = 0) ||
      !hasAllStrings (optList r.excludeResources.kinds)
        (optList r.matchResources.kinds))

/-- Go map lookup with the zero value `""` for a missing key (also on a nil
map), as in `r.ExcludeResources.Selector.MatchLabels[label]`. -/
def mapLookupDefault (m : Option (List (String × String))) (k : String) : String :=
  ((optList m).find? fun q => decide (q.1 = k)).elim "" Prod.snd

/-- Lines 235-255 (and identically 258-278): given both selectors, the selector
dimension returns no-conflict.  First sub-block: exclude has expressions and
match's expressions are empty or some match expression is not among exclude's
(membership through `json.Marshal` strings = structural equality).  Second
sub-block: exclude has labels and match's labels are empty or some match label
entry disagrees with exclude's lookup of its key. -/
def selectorPairBlocks (msel esel : LabelSelector) : Bool :=
  (decide (0 < listLen esel.matchExpressions) &&
    (decide (listLen msel.matchExpressions = 0) ||
      !((optList msel.matchExpressions).all fun e =>
          decide (e ∈ optList esel.matchExpressions)))) ||
  (decide (0 < listLen esel.matchLabels) &&
    (decide (listLen msel.matchLabels = 0) ||
      !((optList msel.matchLabels).all fun q =>
          decide (mapLookupDefault esel.matchLabels q.1 = q.2))))

/-- Lines 234-256: the label-selector dimension returns no-conflict (only
reachable when both sides define a selector). -/
def selectorDimensionBlocks (r : Rule) : Bool :=
  match r.matchResources.selector, r.excludeResources.selector with
  | some msel, some esel => selectorPairBlocks msel esel
  | _, _ => false

/-- Lines 257-279: the namespace-selector dimension returns no-conflict. -/
def namespaceSelectorDimensionBlocks (r : Rule) : Bool :=
  match r.matchResources.namespaceSelector, r.excludeResources.namespaceSelector with
  | some msel, some esel => selectorPairBlocks msel esel
  | _, _ => false

/-- Lines 280-283: exactly one side defines a label selector. -/
def selectorOneSided (r : Rule) : Bool :=
  (r.matchResources.selector.isNone && r.excludeResources.selector.isSome) ||
  (r.matchResources.selector.isSome && r.excludeResources.selector.isNone)

/-- Lines 284-287: exactly one side defines a namespace selector. -/
def namespaceSelectorOneSided (r : Rule) : Bool :=
  (r.matchResources.namespaceSelector.isNone && r.excludeResources.namespaceSelector.isSome) ||
  (r.matchResources.namespaceSelector.isSome && r.excludeResources.namespaceSelector.isNone)

/-- Lines 288-292: both sides define annotation maps and they are not
`reflect.DeepEqual`. -/
def annotationsDiffer (r : Rule) : Bool :=
  match r.matchResources.annotations, r.excludeResources.annotations with
  | some ma, some ea => !mapEqCore ma ea
  | _, _ => false

/-- Lines 293-296: exactly one side defines an annotation map. -/
def annotationsOneSided (r : Rule) : Bool :=
  (r.matchResources.annotations.isNone && r.excludeResources.annotations.isSome) ||
  (r.matchResources.annotations.isSome && r.excludeResources.annotations.isNone)

/-- Embeds `Rule.ValidateMathExcludeConflict` (lines 136-298), keeping the
source's spelling of the name.  Each Go early `return errs` with the list still
empty is a `[]` branch; the two error sites return the singleton
`emptySetError`. -/
def Rule.ValidateMathExcludeConflict (r : Rule) (path : FieldPath) : List FieldError :=
  if 0 < listLen r.excludeResources.all ∨ 0 < listLen r.matchResources.all then []
  else if 0 < listLen r.matchResources.any ∧ 0 < listLen r.excludeResources.any then
    if anyEntryOverlap r then [emptySetError path] else []
  else if MatchResources.deepEqual r.excludeResources {} then []
  else if rolesDimensionBlocks r then []
  else if clusterRolesDimensionBlocks r then []
  else if subjectsDimensionBlocks r then []
  else if nameDimensionBlocks r then []
  else if 0 < listLen r.excludeResources.names then
    if listLen r.matchResources.names = 0 then []
    else if namesConflict r then [emptySetError path]
    else []
  else if namespacesDimensionBlocks r then []
  else if kindsDimensionBlocks r then []
  else if selectorDimensionBlocks r then []
  else if namespaceSelectorDimensionBlocks r then []
  else if selectorOneSided r then []
  else if namespaceSelectorOneSided r then []
  else if annotationsDiffer r then []
  else if annotationsOneSided r then []
  else [emptySetError path]

/-- Embeds `Rule.MatchKinds` (lines 85-95). -/
def Rule.MatchKinds (r : Rule) : List String :=
  let matchKinds := optList r.matchResources.resourceDescription.kinds
  let matchKinds := (optList r.matchResources.all).foldl
    (fun acc v => acc ++ optList v.resourceDescription.kinds) matchKinds
  let matchKinds := (optList r.matchResources.any).foldl
    (fun acc v => acc ++ optList v.resourceDescription.kinds) matchKinds
  matchKinds

/-- Embeds `Rule.ExcludeKinds` (lines 98-107). -/
def Rule.ExcludeKinds (r : Rule) : List String :=
  let excludeKinds := optList r.excludeResources.resourceDescription.kinds
  let excludeKinds := (optList r.excludeResources.all).foldl
    (fun acc v => acc ++ optList v.resourceDescription.kinds) excludeKinds
  let excludeKinds := (optList r.excludeResources.any).foldl
    (fun acc v => acc ++ optList v.resourceDescription.kinds) excludeKinds
  excludeKinds

/-- Embeds `Rule.Validate` (lines 301-308).  The structural validation of a
`MatchResources` value (`MatchResources.Validate`) lives outside this file's
sources and is an external collaborator per the spec, so it is passed in as a
function argument and applied exactly as the source applies it. -/
def Rule.Validate
    (matchResourcesValidate : MatchResources → FieldPath → Bool → List String → List FieldError)
    (r : Rule) (path : FieldPath) (namespaced : Bool) (clusterResources : List String) :
    List FieldError :=
  let errs : List FieldError := []
  let errs := errs ++ r.ValidateRuleType path
  let errs := errs ++ r.ValidateMathExcludeConflict path
  let errs := errs ++ matchResourcesValidate r.matchResources (path.child "match")
    namespaced clusterResources
  let errs := errs ++ matchResourcesValidate r.excludeResources (path.child "exclude")
    namespaced clusterResources
  errs

/-! Concrete inputs used by counterexamples and witnesses. -/

def path0 : FieldPath := {}

/-- An exclude block whose every field is empty, with the `Any` list present
but empty (Go: `Any: []ResourceFilter{}`, an empty non-nil slice). -/
def ruleEmptyExcludePresent : Rule :=
  { name := "r4"
    matchResources := { resourceDescription := { kinds := some ["Pod"] } }
    excludeResources := { any := some [] } }

/-- The same rule with the exclude block entirely nil (the zero value). -/
def ruleEmptyExcludeNil : Rule :=
  { name := "r4nil"
    matchResources := { resourceDescription := { kinds := some ["Pod"] } } }

/-- A rule with a populated `match.all` list. -/
def ruleAllPopulated : Rule :=
  { name := "r5"
    matchResources := { all := some [{}] }
    excludeResources := { resourceDescription := { kinds := some ["Pod"] } } }

/-- match = {kinds: [Pod], any: [{kinds: [Deployment]}]}. -/
def ruleKindsExample : Rule :=
  { name := "r9"
    matchResources :=
      { resourceDescription := { kinds := some ["Pod"] }
        any := some [{ resourceDescription := { kinds := some ["Deployment"] } }] } }

/-- Empty-but-present verifyImages list next to a populated mutation. -/
def ruleVerifyImagesEmptyPlusMutate : Rule :=
  { name := "r10a"
    verifyImages := some []
    mutation := { payload := some "m" } }

/-- Empty-but-present verifyImages list as the only effect. -/
def ruleVerifyImagesEmptyOnly : Rule :=
  { name := "r10b"
    verifyImages := some [] }

/-- C4 (code bug): the claim says an entirely empty exclude (every field empty
or nil) never conflicts, and the source's own doc comment says the function
flags only rules whose match-minus-exclude is empty.  But line 151 uses
`reflect.DeepEqual` against `MatchResources{}`, which distinguishes a nil from
an empty non-nil slice: an exclude with `Any: []ResourceFilter{}` (excluding
nothing) slips past the emptiness test, every populated-dimension guard is
vacuously skipped, and the final "empty set" error is returned even though the
rule plainly matches Pods.  With the exclude block fully nil the emptiness test
fires and no error is returned. -/
theorem C4_empty_exclude_eval :
    ruleEmptyExcludePresent.ValidateMathExcludeConflict path0 = [emptySetError path0] ∧
    ruleEmptyExcludeNil.ValidateMathExcludeConflict path0 = [] := by
  decide

/-- C5: if `match.all` or `exclude.all` is non-empty the conflict detector
returns no error, irrespective of all other fields (lines 137-139). -/
theorem C5_all_nonempty_no_conflict (r : Rule) (p : FieldPath)
    (h : 0 < listLen r.matchResources.all ∨ 0 < listLen r.excludeResources.all) :
    r.ValidateMathExcludeConflict p = [] := by
  rw [Rule.ValidateMathExcludeConflict, if_pos h.symm]

theorem C5_witness :
    ruleAllPopulated.ValidateMathExcludeConflict path0 = [] :=
  C5_all_nonempty_no_conflict ruleAllPopulated path0 (Or.inl (by decide))

/-- C6: `ValidateRuleType` returns zero errors when exactly one of the four
effect fields is populated and exactly one error otherwise (zero populated or
two or more populated), lines 118-133. -/
theorem C6_operation_exclusivity (r : Rule) (p : FieldPath) :
    (r.ValidateRuleType p).length = if r.operationCount = 1 then 0 else 1 := by
  cases hm : r.HasMutate <;> cases hv : r.HasValidate <;> cases hg : r.HasGenerate <;>
    cases hi : r.HasVerifyImages <;>
      simp [Rule.ValidateRuleType, Rule.operationCount, hm, hv, hg, hi]

/-- C8: `Validate` is the concatenation, in this fixed order, of the
operation-exclusivity errors, the match/exclude-conflict errors, the structural
errors of match, and the structural errors of exclude; all four phases are
always invoked (lines 301-308). -/
theorem C8_validate_phase_order
    (sv : MatchResources → FieldPath → Bool → List String → List FieldError)
    (r : Rule) (p : FieldPath) (namespaced : Bool) (clusterResources : List String) :
    Rule.Validate sv r p namespaced clusterResources =
      r.ValidateRuleType p ++
      r.ValidateMathExcludeConflict p ++
      sv r.matchResources (p.child "match") namespaced clusterResources ++
      sv r.excludeResources (p.child "exclude") namespaced clusterResources := by
  simp [Rule.Validate, List.append_assoc]

/-- `foldl` with accumulator-append is append of the flattened images, the shape
of the loops in `MatchKinds`/`ExcludeKinds`. -/
theorem foldl_append_join {α β : Type} (f : α → List β) :
    ∀ (l : List α) (init : List β),
      l.foldl (fun acc v => acc ++ f v) init = init ++ (l.map f).flatten := by
  intro l
  induction l with
  | nil => intro init; simp
  | cons x xs ih => intro init; simp [ih, List.append_assoc]

/-- C9: `MatchKinds` (resp. `ExcludeKinds`) is exactly the selector's direct
kinds, then the kinds of each `all` entry in list order, then the kinds of each
`any` entry in list order; in particular match = {kinds: [Pod], any:
[{kinds: [Deployment]}]} yields [Pod, Deployment] (lines 85-107). -/
theorem C9_kinds_concatenation :
    (∀ r : Rule, r.MatchKinds =
        optList r.matchResources.resourceDescription.kinds ++
        ((optList r.matchResources.all).map fun v => optList v.resourceDescription.kinds).flatten ++
        ((optList r.matchResources.any).map fun v => optList v.resourceDescription.kinds).flatten) ∧
    (∀ r : Rule, r.ExcludeKinds =
        optList r.excludeResources.resourceDescription.kinds ++
        ((optList r.excludeResources.all).map fun v => optList v.resourceDescription.kinds).flatten ++
        ((optList r.excludeResources.any).map fun v => optList v.resourceDescription.kinds).flatten) ∧
    ruleKindsExample.MatchKinds = ["Pod", "Deployment"] := by
  refine ⟨fun r => ?_, fun r => ?_, by decide⟩
  · rw [Rule.MatchKinds]
    rw [foldl_append_join, foldl_append_join]
  · rw [Rule.ExcludeKinds]
    rw [foldl_append_join, foldl_append_join]

/-- C10: the verify-images effect counts as declared exactly when the
`VerifyImages` slice is non-nil, even when it is empty, because the
`reflect.DeepEqual` guard in `HasVerifyImages` compares values of two distinct
types and never fires (lines 70-72); hence an empty-but-present list next to a
mutation draws the "multiple operations" error, and an empty-but-present list
alone draws no error at all. -/
theorem C10_verify_images_nil_sensitivity :
    (∀ r : Rule, r.HasVerifyImages = r.verifyImages.isSome) ∧
    ruleVerifyImagesEmptyPlusMutate.ValidateRuleType path0 =
      [⟨path0, "Multiple operations defined in the rule r10a, only one operation (mutate,validate,generate,verifyImages) is allowed per rule"⟩] ∧
    ruleVerifyImagesEmptyOnly.ValidateRuleType path0 = [] := by
  refine ⟨fun r => ?_, by decide, by decide⟩
  · simp [Rule.HasVerifyImages]

/-! Bridging lemmas between the Bool-valued embedding and Prop statements. -/

theorem anyEntryOverlap_eq_true_iff (r : Rule) :
    anyEntryOverlap r = true ↔
      ∃ rmr ∈ optList r.matchResources.any,
        ∃ rer ∈ optList r.excludeResources.any, rmr.deepEqual rer = true := by
  simp [anyEntryOverlap, List.any_eq_true]

theorem namesConflict_eq_true_iff (r : Rule) :
    namesConflict r = true ↔
      ∃ mn ∈ optList r.matchResources.names,
        ∃ en ∈ optList r.excludeResources.names, wildcardMatch en mn = true := by
  simp [namesConflict, List.any_eq_true]

theorem optSelectorDeepEqual_none_right (s : Option LabelSelector) :
    optSelectorDeepEqual s none = true ↔ s = none := by
  cases s <;> simp [optSelectorDeepEqual]

/-- A `MatchResources` that is `reflect.DeepEqual` to the zero value has nil
names, namespaces, kinds, selector and namespace selector. -/
theorem deepEqualZero_fields (m : MatchResources)
    (h : MatchResources.deepEqual m {} = true) :
    m.resourceDescription.names = none ∧ m.resourceDescription.namespaces = none ∧
    m.resourceDescription.kinds = none ∧ m.resourceDescription.selector = none ∧
    m.resourceDescription.namespaceSelector = none := by
  rw [MatchResources.deepEqual] at h
  simp only [Bool.and_eq_true, decide_eq_true_eq] at h
  obtain ⟨⟨⟨-, hrd⟩, -⟩, -⟩ := h
  rw [ResourceDescription.deepEqual] at hrd
  simp only [Bool.and_eq_true, decide_eq_true_eq] at hrd
  obtain ⟨⟨⟨⟨⟨⟨hk, -⟩, hns⟩, hnsp⟩, -⟩, hsel⟩, hnssel⟩ := hrd
  exact ⟨hns, hnsp, hk, (optSelectorDeepEqual_none_right _).mp hsel,
    (optSelectorDeepEqual_none_right _).mp hnssel⟩

theorem deepEqualZero_false_of_names (m : MatchResources)
    (h : 0 < listLen m.resourceDescription.names) :
    MatchResources.deepEqual m {} = false := by
  cases hd : MatchResources.deepEqual m {} with
  | false => rfl
  | true =>
    obtain ⟨hns, -, -, -, -⟩ := deepEqualZero_fields m hd
    rw [hns] at h
    simp [listLen] at h

theorem deepEqualZero_false_of_namespaces (m : MatchResources)
    (h : 0 < listLen m.resourceDescription.namespaces) :
    MatchResources.deepEqual m {} = false := by
  cases hd : MatchResources.deepEqual m {} with
  | false => rfl
  | true =>
    obtain ⟨-, hnsp, -, -, -⟩ := deepEqualZero_fields m hd
    rw [hnsp] at h
    simp [listLen] at h

/-- Once the `all` guard, the `any`-vs-`any` branch, the emptiness test and the
role/cluster-role/subject/single-name dimensions are passed, the detector's
result is the tail of the chain starting at the names dimension. -/
theorem conflict_reduces_to_names_tail (r : Rule) (p : FieldPath)
    (hMAll : listLen r.matchResources.all = 0)
    (hEAll : listLen r.excludeResources.all = 0)
    (hAny : ¬(0 < listLen r.matchResources.any ∧ 0 < listLen r.excludeResources.any))
    (hzero : MatchResources.deepEqual r.excludeResources {} = false)
    (hRoles : rolesDimensionBlocks r = false)
    (hCluster : clusterRolesDimensionBlocks r = false)
    (hSubjects : subjectsDimensionBlocks r = false)
    (hName : nameDimensionBlocks r = false) :
    r.ValidateMathExcludeConflict p =
      (if 0 < listLen r.excludeResources.names then
        if listLen r.matchResources.names = 0 then []
        else if namesConflict r then [emptySetError p]
        else []
      else if namespacesDimensionBlocks r then []
      else if kindsDimensionBlocks r then []
      else if selectorDimensionBlocks r then []
      else if namespaceSelectorDimensionBlocks r then []
      else if selectorOneSided r then []
      else if namespaceSelectorOneSided r then []
      else if annotationsDiffer r then []
      else if annotationsOneSided r then []
      else [emptySetError p]) := by
  rw [Rule.ValidateMathExcludeConflict, if_neg (by simp [hMAll, hEAll]), if_neg hAny,
    if_neg (by simp [hzero]), if_neg (by simp [hRoles]), if_neg (by simp [hCluster]),
    if_neg (by simp [hSubjects]), if_neg (by simp [hName])]

/-! C1. -/

def filterPodKinds : ResourceFilter :=
  { resourceDescription := { kinds := some ["Pod"] } }

def filterServiceKinds : ResourceFilter :=
  { resourceDescription := { kinds := some ["Service"] } }

/-- match.any = [Pod-filter, Service-filter], exclude.any = [Pod-filter]: only
one of the two match entries has a structurally identical exclude entry. -/
def ruleAnyOverlapPartial : Rule :=
  { name := "r1"
    matchResources := { any := some [filterPodKinds, filterServiceKinds] }
    excludeResources := { any := some [filterPodKinds] } }

/-- C1 counterexample: the detector returns the "empty set" error on
`ruleAnyOverlapPartial` although NOT every match-any entry is structurally
identical to some exclude-any entry (the Service filter has no counterpart),
refuting the claimed "if and only if every". -/
theorem C1_counterexample :
    ruleAnyOverlapPartial.ValidateMathExcludeConflict path0 = [emptySetError path0] ∧
    ((optList ruleAnyOverlapPartial.matchResources.any).all fun rmr =>
      (optList ruleAnyOverlapPartial.excludeResources.any).any fun rer =>
        rmr.deepEqual rer) = false := by
  decide

/-- C1 amended: when both `match.any` and `exclude.any` are non-empty (and
neither side's `all` list is populated), the detector returns the single
"empty set" error exactly when AT LEAST ONE entry of match.any is structurally
identical to some entry of exclude.any, and no error otherwise (lines 141-150:
the double loop errors at the first `reflect.DeepEqual` pair). -/
theorem C1_amended_any_overlap (r : Rule) (p : FieldPath)
    (hMAll : listLen r.matchResources.all = 0)
    (hEAll : listLen r.excludeResources.all = 0)
    (hMAny : 0 < listLen r.matchResources.any)
    (hEAny : 0 < listLen r.excludeResources.any) :
    r.ValidateMathExcludeConflict p =
      (if ∃ rmr ∈ optList r.matchResources.any,
            ∃ rer ∈ optList r.excludeResources.any, rmr.deepEqual rer = true
       then [emptySetError p] else []) := by
  rw [Rule.ValidateMathExcludeConflict, if_neg (by simp [hMAll, hEAll]),
    if_pos ⟨hMAny, hEAny⟩]
  by_cases h : anyEntryOverlap r = true
  · rw [if_pos h, if_pos ((anyEntryOverlap_eq_true_iff r).mp h)]
  · rw [if_neg h, if_neg (fun hc => h ((anyEntryOverlap_eq_true_iff r).mpr hc))]

theorem C1_amended_witness :
    ruleAnyOverlapPartial.ValidateMathExcludeConflict path0 = [emptySetError path0] := by
  have h := C1_amended_any_overlap ruleAnyOverlapPartial path0 (by decide) (by decide)
    (by decide) (by decide)
  exact h.trans (if_pos (by decide))

/-! C2. -/

/-- match.names = [a, b], exclude.names = [a]: only one of the two match names
is matched by an exclude pattern. -/
def ruleNamesOverlapPartial : Rule :=
  { name := "r2"
    matchResources := { resourceDescription := { names := some ["a", "b"] } }
    excludeResources := { resourceDescription := { names := some ["a"] } } }

/-- C2 counterexample: the detector returns the "empty set" error on
`ruleNamesOverlapPartial` although NOT every match-side name is matched by an
exclude-side pattern ("b" is unmatched), refuting the claimed "every". -/
theorem C2_counterexample :
    ruleNamesOverlapPartial.ValidateMathExcludeConflict path0 = [emptySetError path0] ∧
    ((optList ruleNamesOverlapPartial.matchResources.names).all fun mn =>
      (optList ruleNamesOverlapPartial.excludeResources.names).any fun en =>
        wildcardMatch en mn) = false := by
  decide

/-- C2 amended: when `exclude.names` is non-empty and the all/any branches and
the earlier role, cluster-role, subject and single-name dimensions did not
already decide the result, the detector returns the "empty set" error exactly
when `match.names` is non-empty and AT LEAST ONE match-side name is matched by
some exclude-side wildcard pattern, and it returns directly from this
dimension in every case: the result depends on no later dimension
(lines 203-223). -/
theorem C2_amended_names_dimension (r : Rule) (p : FieldPath)
    (hMAll : listLen r.matchResources.all = 0)
    (hEAll : listLen r.excludeResources.all = 0)
    (hAny : ¬(0 < listLen r.matchResources.any ∧ 0 < listLen r.excludeResources.any))
    (hRoles : rolesDimensionBlocks r = false)
    (hCluster : clusterRolesDimensionBlocks r = false)
    (hSubjects : subjectsDimensionBlocks r = false)
    (hName : nameDimensionBlocks r = false)
    (hNames : 0 < listLen r.excludeResources.names) :
    r.ValidateMathExcludeConflict p =
      (if 0 < listLen r.matchResources.names ∧
          ∃ mn ∈ optList r.matchResources.names,
            ∃ en ∈ optList r.excludeResources.names, wildcardMatch en mn = true
       then [emptySetError p] else []) := by
  have hzero : MatchResources.deepEqual r.excludeResources {} = false :=
    deepEqualZero_false_of_names _ hNames
  rw [conflict_reduces_to_names_tail r p hMAll hEAll hAny hzero hRoles hCluster hSubjects hName,
    if_pos hNames]
  rcases Nat.eq_zero_or_pos (listLen r.matchResources.names) with hz | hpos
  · rw [if_pos hz, if_neg (by simp [hz])]
  · rw [if_neg (Nat.pos_iff_ne_zero.mp hpos)]
    by_cases hc : namesConflict r = true
    · rw [if_pos hc, if_pos ⟨hpos, (namesConflict_eq_true_iff r).mp hc⟩]
    · rw [if_neg hc, if_neg (fun hx => hc ((namesConflict_eq_true_iff r).mpr hx.2))]

theorem C2_amended_witness :
    ruleNamesOverlapPartial.ValidateMathExcludeConflict path0 = [emptySetError path0] := by
  have h := C2_amended_names_dimension ruleNamesOverlapPartial path0 (by decide) (by decide)
    (by decide) (by decide) (by decide) (by decide) (by decide) (by decide)
  exact h.trans (if_pos (by decide))

/-! C7. -/

theorem hasAllStrings_eq_false_of_not_subset (ex ms : List String)
    (h : ¬ ∀ m ∈ ms, m ∈ ex) : hasAllStrings ex ms = false := by
  cases hall : hasAllStrings ex ms with
  | false => rfl
  | true =>
    rw [hasAllStrings] at hall
    exact absurd (fun m hm => of_decide_eq_true (List.all_eq_true.mp hall m hm)) h

/-- The common shape of the namespaces and kinds dimension guards: exclude-side
populated and match-side empty or not contained forces the no-conflict return. -/
theorem stringDimensionShape_true (eo mo : Option (List String))
    (he : 0 < listLen eo)
    (hnc : ¬(0 < listLen mo ∧ ∀ n ∈ optList mo, n ∈ optList eo)) :
    (decide (0 < listLen eo) &&
      (decide (listLen mo = 0) || !hasAllStrings (optList eo) (optList mo))) = true := by
  simp only [Bool.and_eq_true, Bool.or_eq_true, decide_eq_true_eq, Bool.not_eq_true']
  refine ⟨he, ?_⟩
  rcases Nat.eq_zero_or_pos (listLen mo) with hz | hpos
  · exact Or.inl hz
  · exact Or.inr (hasAllStrings_eq_false_of_not_subset _ _ fun hsub => hnc ⟨hpos, hsub⟩)

theorem namespacesDimensionBlocks_of (r : Rule)
    (he : 0 < listLen r.excludeResources.namespaces)
    (hnc : ¬(0 < listLen r.matchResources.namespaces ∧
        ∀ n ∈ optList r.matchResources.namespaces, n ∈ optList r.excludeResources.namespaces)) :
    namespacesDimensionBlocks r = true := by
  rw [namespacesDimensionBlocks]
  exact stringDimensionShape_true _ _ he hnc

theorem kindsDimensionBlocks_of (r : Rule)
    (he : 0 < listLen r.excludeResources.kinds)
    (hnc : ¬(0 < listLen r.matchResources.kinds ∧
        ∀ k ∈ optList r.matchResources.kinds, k ∈ optList r.excludeResources.kinds)) :
    kindsDimensionBlocks r = true := by
  rw [kindsDimensionBlocks]
  exact stringDimensionShape_true _ _ he hnc

/-- exclude.namespaces = [prod], match.namespaces = [prod, staging]. -/
def ruleNamespacesNotContained : Rule :=
  { name := "r7a"
    matchResources := { resourceDescription := { namespaces := some ["prod", "staging"] } }
    excludeResources := { resourceDescription := { namespaces := some ["prod"] } } }

/-- exclude.kinds = [Pod], match.kinds = [Pod], all other dimensions unset. -/
def rulePodKindsBoth : Rule :=
  { name := "r7b"
    matchResources := { resourceDescription := { kinds := some ["Pod"] } }
    excludeResources := { resourceDescription := { kinds := some ["Pod"] } } }

/-- C7: when `exclude.namespaces` (resp. `exclude.kinds`) is non-empty and the
earlier stages did not decide the result, the detector returns no error unless
the match-side set is non-empty and fully contained in the exclude-side set
(lines 224-233); concretely, exclude.namespaces = [prod] with
match.namespaces = [prod, staging] yields no error, and exclude.kinds = [Pod]
with match.kinds = [Pod] and everything else unset yields exactly the one
"empty set" error. -/
theorem C7_namespaces_kinds_dimension :
    (∀ (r : Rule) (p : FieldPath),
      listLen r.matchResources.all = 0 → listLen r.excludeResources.all = 0 →
      ¬(0 < listLen r.matchResources.any ∧ 0 < listLen r.excludeResources.any) →
      rolesDimensionBlocks r = false → clusterRolesDimensionBlocks r = false →
      subjectsDimensionBlocks r = false → nameDimensionBlocks r = false →
      listLen r.excludeResources.names = 0 →
      0 < listLen r.excludeResources.namespaces →
      ¬(0 < listLen r.matchResources.namespaces ∧
          ∀ n ∈ optList r.matchResources.namespaces,
            n ∈ optList r.excludeResources.namespaces) →
      r.ValidateMathExcludeConflict p = []) ∧
    (∀ (r : Rule) (p : FieldPath),
      listLen r.matchResources.all = 0 → listLen r.excludeResources.all = 0 →
      ¬(0 < listLen r.matchResources.any ∧ 0 < listLen r.excludeResources.any) →
      rolesDimensionBlocks r = false → clusterRolesDimensionBlocks r = false →
      subjectsDimensionBlocks r = false → nameDimensionBlocks r = false →
      listLen r.excludeResources.names = 0 →
      namespacesDimensionBlocks r = false →
      0 < listLen r.excludeResources.kinds →
      ¬(0 < listLen r.matchResources.kinds ∧
          ∀ k ∈ optList r.matchResources.kinds, k ∈ optList r.excludeResources.kinds) →
      r.ValidateMathExcludeConflict p = []) ∧
    ruleNamespacesNotContained.ValidateMathExcludeConflict path0 = [] ∧
    rulePodKindsBoth.ValidateMathExcludeConflict path0 = [emptySetError path0] := by
  refine ⟨?_, ?_, by decide, by decide⟩
  · intro r p hMAll hEAll hAny hRoles hCluster hSubjects hName hNames he hnc
    have hzero : MatchResources.deepEqual r.excludeResources {} = false :=
      deepEqualZero_false_of_namespaces _ he
    rw [conflict_reduces_to_names_tail r p hMAll hEAll hAny hzero hRoles hCluster hSubjects hName,
      if_neg (by simp [hNames]), if_pos (namespacesDimensionBlocks_of r he hnc)]
  · intro r p hMAll hEAll hAny hRoles hCluster hSubjects hName hNames hNsB he hnc
    have hzero : MatchResources.deepEqual r.excludeResources {} = false := by
      cases hd : MatchResources.deepEqual r.excludeResources {} with
      | false => rfl
      | true =>
        obtain ⟨-, -, hk, -, -⟩ := deepEqualZero_fields _ hd
        rw [show r.excludeResources.kinds = r.excludeResources.resourceDescription.kinds from rfl,
          hk] at he
        simp [listLen] at he
    rw [conflict_reduces_to_names_tail r p hMAll hEAll hAny hzero hRoles hCluster hSubjects hName,
      if_neg (by simp [hNames]), if_neg (by simp [hNsB]),
      if_pos (kindsDimensionBlocks_of r he hnc)]

theorem C7_witness :
    ruleNamespacesNotContained.ValidateMathExcludeConflict path0 = [] :=
  C7_namespaces_kinds_dimension.1 ruleNamespacesNotContained path0 (by decide) (by decide)
    (by decide) (by decide) (by decide) (by decide) (by decide) (by decide) (by decide)
    (by decide)

/-! C3. -/

